import Mathlib

/-!
# BlueSphere temporal aggregation and anomaly/heatwave pipeline — verification

Shallow embedding of the temporal aggregation, climate-baseline, anomaly and
marine-heatwave components of the BlueSphere repository
(`backend/temporal_db.py`, `scripts/temporal_processor.py`,
`ingestion/temporal_ingest_ersst.py`, `ingestion/temporal_ingest_oisst.py`).

Numeric values (`double precision` columns, Python floats) are modelled as
exact rationals `ℚ`; SQL `NULL` is modelled as `Option`.  Dates are modelled
as integer day numbers; a monthly record keeps its `(year, month)` pair as in
the `temporal_temperature_monthly` table.
-/

namespace BlueSphere

/-! ## Spatial binner

`temporal_db.py` bins with `ROUND(lat_bin / :resolution) * :resolution` on
`double precision` columns (PostgreSQL rounds double-precision ties to the
nearest even integer), and the ingesters (`temporal_ingest_oisst.py` line 213,
`temporal_ingest_ersst.py` line 207) bin with Python `round(float(lat))`,
which also rounds ties to the nearest even integer.  `roundHalfEven` is that
rounding rule on exact rationals. -/

/-- Round to the nearest integer, ties to the even integer — the rule used by
Python `round` and PostgreSQL `ROUND` on `double precision`. -/
def roundHalfEven (x : ℚ) : ℤ :=
  let f := ⌊x⌋
  let r := x - f
  if r < 1/2 then f
  else if 1/2 < r then f + 1
  else if f % 2 = 0 then f else f + 1

/-- Modelled from the spec: round-half-up (`⌊x + 1/2⌋`), the tie rule the spec
prescribes for the Spatial Binner; defined only to compare against the
source's `roundHalfEven`. -/
def roundHalfUpSpec (x : ℚ) : ℤ :=
  ⌊x + 1/2⌋

/-- One coordinate of the Spatial Binner:
`lat_bin = ROUND(lat / resolution) * resolution`
(`temporal_db.py` lines 277–278, 338–339, 397–398). -/
def binQ (x res : ℚ) : ℚ :=
  (roundHalfEven (x / res) : ℚ) * res

/-- `bin(lat, lon, resolution) → (lat_bin, lon_bin)` — the Spatial Binner on
both coordinates. -/
def binPair (lat lon res : ℚ) : ℚ × ℚ :=
  (binQ lat res, binQ lon res)

/-! ## Record types (from `backend/models.py`) -/

/-- A row of `temporal_temperature_daily` (`models.py` class
`TemporalTemperatureDaily`).  `std_sst_c` stores the squared standard
deviation (variance) in this rational model, so that the field stays in `ℚ`;
the population/sample distinction is fully visible at the variance level. -/
structure DailyRow where
  date : ℤ
  lat_bin : ℚ
  lon_bin : ℚ
  avg_sst_c : Option ℚ
  min_sst_c : Option ℚ
  max_sst_c : Option ℚ
  std_sst_c : Option ℚ
  count : ℤ
  dataset : String
deriving DecidableEq, Repr

/-- A row of `temporal_temperature_monthly` (`models.py` class
`TemporalTemperatureMonthly`); `std_sst_c` is modelled as the variance. -/
structure MonthlyRow where
  year : ℤ
  month : ℤ
  lat_bin : ℚ
  lon_bin : ℚ
  avg_sst_c : Option ℚ
  min_sst_c : Option ℚ
  max_sst_c : Option ℚ
  std_sst_c : Option ℚ
  count : ℤ
  dataset : String
deriving DecidableEq, Repr

/-- A row of `temporal_temperature_yearly` (`models.py` class
`TemporalTemperatureYearly`); `std_sst_c` is modelled as the variance. -/
structure YearlyRow where
  year : ℤ
  lat_bin : ℚ
  lon_bin : ℚ
  avg_sst_c : Option ℚ
  min_sst_c : Option ℚ
  max_sst_c : Option ℚ
  std_sst_c : Option ℚ
  count : ℤ
  dataset : String
deriving DecidableEq, Repr

/-- A row of `climate_baseline` (`models.py` class `ClimateBaseline`);
`std_sst_c` is modelled as the variance. -/
structure BaselineRow where
  lat_bin : ℚ
  lon_bin : ℚ
  month : ℤ
  baseline_period_start : ℤ
  baseline_period_end : ℤ
  climatology_sst_c : Option ℚ
  std_sst_c : Option ℚ
  dataset : String
deriving DecidableEq, Repr

/-- A row of `temperature_anomaly` (`models.py` class `TemperatureAnomaly`).
The stored `date` column is `make_date(year, month, 1)`; the model keeps the
`(year, month)` pair that determines it. -/
structure AnomalyRec where
  year : ℤ
  month : ℤ
  lat_bin : ℚ
  lon_bin : ℚ
  anomaly_c : ℚ
  baseline_period : String
  dataset : String
deriving DecidableEq, Repr

/-- A row of `marine_heatwave` (`models.py` class `MarineHeatwave`). -/
structure HeatwaveRow where
  start_date : ℤ
  end_date : ℤ
  duration_days : ℤ
  lat_bin : ℚ
  lon_bin : ℚ
  max_intensity_c : ℚ
  mean_intensity_c : ℚ
  cumulative_intensity : ℚ
  threshold_percentile : ℤ
  dataset : String
deriving DecidableEq, Repr

/-! ## Statistics helpers -/

/-- Arithmetic mean of a list of rationals (`AVG(...)` in the SQL; `0` on the
empty list, which the callers never pass). -/
def listMean (xs : List ℚ) : ℚ :=
  xs.sum / xs.length

/-- The square of PostgreSQL `STDDEV(...)` (an alias of `STDDEV_SAMP`): the
sample variance `Σ (x − x̄)² / (n − 1)`, `NULL` when the group has at most one
row.  Used by the daily→monthly, monthly→yearly and baseline SQL in
`temporal_db.py`. -/
def sqlStddevVar (xs : List ℚ) : Option ℚ :=
  if xs.length ≤ 1 then none
  else some (((xs.map (fun x => (x - listMean xs) ^ 2)).sum) / ((xs.length : ℚ) - 1))

/-- Modelled from the spec: the population variance (square of the population
standard deviation) `Σ (x − x̄)² / n`, the statistic the spec says the
Resolution Aggregator's `std` field holds; `0` on the empty list. -/
def popVarianceSpec (xs : List ℚ) : ℚ :=
  if xs.length = 0 then 0
  else ((xs.map (fun x => (x - listMean xs) ^ 2)).sum) / (xs.length : ℚ)

/-- The square of the ingesters' in-file std:
`np.std(temps) if len(temps) > 1 else 0.0`
(`temporal_ingest_ersst.py` line 226, `temporal_ingest_oisst.py` line 231);
`np.std` is the population standard deviation. -/
def ingesterStdVar (xs : List ℚ) : ℚ :=
  if 1 < xs.length then ((xs.map (fun x => (x - listMean xs) ^ 2)).sum) / (xs.length : ℚ)
  else 0

/-! ## Grouping (the SQL `GROUP BY` of the aggregation statements) -/

/-- `SQL GROUP BY`: the distinct keys of `rows` under `key`, each paired with
the rows carrying that key, in first-appearance order. -/
def groupByKey {α κ : Type} [DecidableEq κ] (key : α → κ) (rows : List α) :
    List (κ × List α) :=
  ((rows.map key).dedup).map (fun k => (k, rows.filter (fun r => decide (key r = k))))

/-! ## Resolution Aggregator (`temporal_db.py` lines 243–369)

The month's date window `[startD, endD]` is passed in; the source derives it
from `(year, month)` with calendar arithmetic (`temporal_db.py` lines
263–267). -/

/-- The `WHERE` clause of the daily→monthly aggregation SQL:
`date >= :start_date AND date <= :end_date AND dataset = :dataset AND
avg_sst_c IS NOT NULL`. -/
def qualifiesDaily (startD endD : ℤ) (ds : String) (r : DailyRow) : Prop :=
  startD ≤ r.date ∧ r.date ≤ endD ∧ r.dataset = ds ∧ r.avg_sst_c ≠ none

instance (startD endD : ℤ) (ds : String) (r : DailyRow) :
    Decidable (qualifiesDaily startD endD ds r) := by
  unfold qualifiesDaily; infer_instance

/-- Grouping key of the aggregation SQL:
`ROUND(lat_bin / :resolution) * :resolution` on both coordinates. -/
def dailyKey (res : ℚ) (r : DailyRow) : ℚ × ℚ :=
  (binQ r.lat_bin res, binQ r.lon_bin res)

/-- The `SELECT` list of the daily→monthly SQL applied to one group:
`AVG(avg_sst_c)`, `MIN(min_sst_c)`, `MAX(max_sst_c)`, `STDDEV(avg_sst_c)`,
`SUM(count)`. -/
def monthlyAggOfGroup (year month : ℤ) (ds : String) (k : ℚ × ℚ)
    (grp : List DailyRow) : MonthlyRow :=
  let xs := grp.filterMap (·.avg_sst_c)
  { year := year, month := month, lat_bin := k.1, lon_bin := k.2,
    avg_sst_c := some (listMean xs),
    min_sst_c := (grp.filterMap (·.min_sst_c)).min?,
    max_sst_c := (grp.filterMap (·.max_sst_c)).max?,
    std_sst_c := sqlStddevVar xs,
    count := (grp.map (·.count)).sum,
    dataset := ds }

/-- `TemporalDataManager.aggregate_daily_to_monthly` (`temporal_db.py` lines
243–312): group the qualifying daily rows by binned coordinates and emit one
monthly row per group. -/
def aggregateDailyToMonthly (db : List DailyRow) (year month startD endD : ℤ)
    (ds : String) (res : ℚ) : List MonthlyRow :=
  let rows := db.filter (fun r => decide (qualifiesDaily startD endD ds r))
  (groupByKey (dailyKey res) rows).map (fun kg =>
    monthlyAggOfGroup year month ds kg.1 kg.2)

/-- The `WHERE` clause of the monthly→yearly aggregation SQL:
`year = :year AND dataset = :dataset AND avg_sst_c IS NOT NULL`. -/
def qualifiesMonthlyOfYear (year : ℤ) (ds : String) (m : MonthlyRow) : Prop :=
  m.year = year ∧ m.dataset = ds ∧ m.avg_sst_c ≠ none

instance (year : ℤ) (ds : String) (m : MonthlyRow) :
    Decidable (qualifiesMonthlyOfYear year ds m) := by
  unfold qualifiesMonthlyOfYear; infer_instance

/-- Binned grouping key for monthly rows (without the calendar month). -/
def monthlySpatialKey (res : ℚ) (m : MonthlyRow) : ℚ × ℚ :=
  (binQ m.lat_bin res, binQ m.lon_bin res)

/-- The `SELECT` list of the monthly→yearly SQL applied to one group. -/
def yearlyAggOfGroup (year : ℤ) (ds : String) (k : ℚ × ℚ)
    (grp : List MonthlyRow) : YearlyRow :=
  let xs := grp.filterMap (·.avg_sst_c)
  { year := year, lat_bin := k.1, lon_bin := k.2,
    avg_sst_c := some (listMean xs),
    min_sst_c := (grp.filterMap (·.min_sst_c)).min?,
    max_sst_c := (grp.filterMap (·.max_sst_c)).max?,
    std_sst_c := sqlStddevVar xs,
    count := (grp.map (·.count)).sum,
    dataset := ds }

/-- `TemporalDataManager.aggregate_monthly_to_yearly` (`temporal_db.py` lines
314–369). -/
def aggregateMonthlyToYearly (db : List MonthlyRow) (year : ℤ)
    (ds : String) (res : ℚ) : List YearlyRow :=
  let rows := db.filter (fun m => decide (qualifiesMonthlyOfYear year ds m))
  (groupByKey (monthlySpatialKey res) rows).map (fun kg =>
    yearlyAggOfGroup year ds kg.1 kg.2)

/-! ## Baseline Calculator (`temporal_db.py` lines 371–432) -/

/-- The `WHERE` clause of the baseline SQL: `year >= :start_year AND
year <= :end_year AND dataset = :dataset AND avg_sst_c IS NOT NULL`. -/
def qualifiesBaselineRow (s e : ℤ) (ds : String) (m : MonthlyRow) : Prop :=
  s ≤ m.year ∧ m.year ≤ e ∧ m.dataset = ds ∧ m.avg_sst_c ≠ none

instance (s e : ℤ) (ds : String) (m : MonthlyRow) :
    Decidable (qualifiesBaselineRow s e ds m) := by
  unfold qualifiesBaselineRow; infer_instance

/-- Grouping key of the baseline SQL: binned coordinates plus calendar
month. -/
def baselineKey (res : ℚ) (m : MonthlyRow) : ℚ × ℚ × ℤ :=
  (binQ m.lat_bin res, binQ m.lon_bin res, m.month)

/-- The source's coverage floor
`min_years = int((end_year - start_year + 1) * 0.7)` (`temporal_db.py` line
421).  Python truncates the binary64 product toward zero; for every period
length `n` with `0 ≤ n < 90` (far beyond the ≤ 40-year periods the system
uses) that equals `⌊7 n / 10⌋`, which is the value modelled here. -/
def minYears (s e : ℤ) : ℕ :=
  7 * (e - s + 1).toNat / 10

/-- `TemporalDataManager.calculate_climate_baseline` (`temporal_db.py` lines
371–432): group qualifying monthly rows by `(lat_bin, lon_bin, month)` and
emit a baseline row for each group whose row count passes
`HAVING COUNT(*) >= :min_years`. -/
def calculateClimateBaseline (db : List MonthlyRow) (s e : ℤ) (ds : String)
    (res : ℚ) : List BaselineRow :=
  let rows := db.filter (fun m => decide (qualifiesBaselineRow s e ds m))
  (groupByKey (baselineKey res) rows).filterMap (fun kg =>
    if minYears s e ≤ kg.2.length then
      let xs := kg.2.filterMap (·.avg_sst_c)
      some { lat_bin := kg.1.1, lon_bin := kg.1.2.1, month := kg.1.2.2,
             baseline_period_start := s, baseline_period_end := e,
             climatology_sst_c := some (listMean xs),
             std_sst_c := sqlStddevVar xs,
             dataset := ds }
    else none)

/-! ## Anomaly Engine (`temporal_db.py` lines 434–492)

The source parses `start_year, end_year = map(int, baseline_period.split('-'))`
from the period string; the parsed pair `(sy, ey)` is passed here alongside
the string that is stamped on each record. -/

/-- The `JOIN ... ON` condition of the anomaly SQL. -/
def baselineMatches (m : MonthlyRow) (sy ey : ℤ) (b : BaselineRow) : Prop :=
  m.lat_bin = b.lat_bin ∧ m.lon_bin = b.lon_bin ∧ m.month = b.month ∧
    b.baseline_period_start = sy ∧ b.baseline_period_end = ey ∧
    b.dataset = m.dataset

instance (m : MonthlyRow) (sy ey : ℤ) (b : BaselineRow) :
    Decidable (baselineMatches m sy ey b) := by
  unfold baselineMatches; infer_instance

/-- `TemporalDataManager.calculate_temperature_anomalies` (`temporal_db.py`
lines 434–492): inner-join the target year's monthly rows to the matching
baseline rows and emit `anomaly_c = m.avg_sst_c - b.climatology_sst_c`.
A monthly row with no matching baseline simply joins to nothing. -/
def calculateTemperatureAnomalies (monthly : List MonthlyRow)
    (baselines : List BaselineRow) (targetYear : ℤ) (baselinePeriod : String)
    (sy ey : ℤ) (ds : String) : List AnomalyRec :=
  monthly.flatMap (fun m =>
    if m.year = targetYear ∧ m.dataset = ds ∧ m.avg_sst_c ≠ none then
      baselines.filterMap (fun b =>
        if baselineMatches m sy ey b ∧ b.climatology_sst_c ≠ none then
          some { year := m.year, month := m.month,
                 lat_bin := m.lat_bin, lon_bin := m.lon_bin,
                 anomaly_c := m.avg_sst_c.getD 0 - b.climatology_sst_c.getD 0,
                 baseline_period := baselinePeriod, dataset := m.dataset }
        else none)
    else [])

/-! ## Temporal Query Layer (`temporal_db.py` lines 34–241)

Every read builds a filter, orders by the date column descending
(`.order_by(col.desc())`), and paginates with `LIMIT :limit OFFSET :offset`
(SQL applies the offset before the limit). -/

/-- The descending-date order used by `ORDER BY col DESC`. -/
def dateDesc {α : Type} (key : α → ℤ) : α → α → Prop :=
  fun a b => key b ≤ key a

instance {α : Type} (key : α → ℤ) : DecidableRel (dateDesc key) :=
  fun a b => inferInstanceAs (Decidable (key b ≤ key a))

instance {α : Type} (key : α → ℤ) : IsTotal α (dateDesc key) :=
  ⟨fun a b => (le_total (key b) (key a)).imp id id⟩

instance {α : Type} (key : α → ℤ) : IsTrans α (dateDesc key) :=
  ⟨fun _ _ _ hab hbc => le_trans hbc hab⟩

/-- `LIMIT limit OFFSET offset`: skip `offset` rows, return at most `limit`. -/
def paginate {α : Type} (l : List α) (limit offset : ℕ) : List α :=
  (l.drop offset).take limit

/-- The shared read pipeline: filter, sort by `key` descending, paginate. -/
def queryPipeline {α : Type} (key : α → ℤ) (p : α → Bool) (rows : List α)
    (limit offset : ℕ) : List α :=
  paginate ((rows.filter p).insertionSort (dateDesc key)) limit offset

/-- Optional bounding-box condition `(min_lon, min_lat, max_lon, max_lat)`
shared by the three reads. -/
def bboxOk (bbox : Option (ℚ × ℚ × ℚ × ℚ)) (lat lon : ℚ) : Prop :=
  match bbox with
  | none => True
  | some (minLon, minLat, maxLon, maxLat) =>
      minLat ≤ lat ∧ lat ≤ maxLat ∧ minLon ≤ lon ∧ lon ≤ maxLon

instance : (bbox : Option (ℚ × ℚ × ℚ × ℚ)) → (lat lon : ℚ) →
    Decidable (bboxOk bbox lat lon)
  | none, _, _ => isTrue trivial
  | some (minLon, minLat, maxLon, maxLat), lat, lon =>
      inferInstanceAs
        (Decidable (minLat ≤ lat ∧ lat ≤ maxLat ∧ minLon ≤ lon ∧ lon ≤ maxLon))

/-- Optional dataset filter shared by the three reads. -/
def datasetOk (ds : Option String) (d : String) : Prop :=
  match ds with
  | none => True
  | some s => d = s

instance : (ds : Option String) → (d : String) → Decidable (datasetOk ds d)
  | none, _ => isTrue trivial
  | some s, d => inferInstanceAs (Decidable (d = s))

/-- The filter of `TemporalDataManager.get_temperature_data` at resolution
`daily` (`temporal_db.py` lines 88–107). -/
def tempDataPred (startD endD : ℤ) (bbox : Option (ℚ × ℚ × ℚ × ℚ))
    (ds : Option String) (r : DailyRow) : Prop :=
  startD ≤ r.date ∧ r.date ≤ endD ∧ bboxOk bbox r.lat_bin r.lon_bin ∧
    datasetOk ds r.dataset

instance (startD endD : ℤ) (bbox : Option (ℚ × ℚ × ℚ × ℚ)) (ds : Option String)
    (r : DailyRow) : Decidable (tempDataPred startD endD bbox ds r) := by
  unfold tempDataPred; infer_instance

/-- `TemporalDataManager.get_temperature_data` for the daily table
(`temporal_db.py` lines 34–113); the monthly/yearly/grid branches differ only
in the table and in the date expression (`make_date(year, month, 1)` etc.). -/
def getTemperatureDataDaily (db : List DailyRow) (startD endD : ℤ)
    (bbox : Option (ℚ × ℚ × ℚ × ℚ)) (ds : Option String)
    (limit offset : ℕ) : List DailyRow :=
  queryPipeline (·.date) (fun r => decide (tempDataPred startD endD bbox ds r))
    db limit offset

/-- The stored `date` column of an anomaly record is `make_date(year, month,
1)`; for calendar months `1..12` its ordering agrees with this integer key. -/
def anomalyDateKey (a : AnomalyRec) : ℤ :=
  a.year * 12 + a.month

/-- Optional minimum-absolute-anomaly condition
(`func.abs(anomaly_c) >= threshold`, `temporal_db.py` line 166). -/
def thresholdOk (threshold : Option ℚ) (x : ℚ) : Prop :=
  match threshold with
  | none => True
  | some t => t ≤ |x|

instance : (threshold : Option ℚ) → (x : ℚ) → Decidable (thresholdOk threshold x)
  | none, _ => isTrue trivial
  | some t, x => inferInstanceAs (Decidable (t ≤ |x|))

/-- The filter of `TemporalDataManager.get_temperature_anomalies`
(`temporal_db.py` lines 143–166), with the date window given by the same
month key. -/
def anomalyPred (startK endK : ℤ) (baseline : String)
    (bbox : Option (ℚ × ℚ × ℚ × ℚ)) (ds : Option String)
    (threshold : Option ℚ) (a : AnomalyRec) : Prop :=
  startK ≤ anomalyDateKey a ∧ anomalyDateKey a ≤ endK ∧
    a.baseline_period = baseline ∧ bboxOk bbox a.lat_bin a.lon_bin ∧
    datasetOk ds a.dataset ∧ thresholdOk threshold a.anomaly_c

instance (startK endK : ℤ) (baseline : String)
    (bbox : Option (ℚ × ℚ × ℚ × ℚ)) (ds : Option String) (threshold : Option ℚ)
    (a : AnomalyRec) :
    Decidable (anomalyPred startK endK baseline bbox ds threshold a) := by
  unfold anomalyPred; infer_instance

/-- `TemporalDataManager.get_temperature_anomalies` (`temporal_db.py` lines
115–172). -/
def getTemperatureAnomalies (db : List AnomalyRec) (startK endK : ℤ)
    (baseline : String) (bbox : Option (ℚ × ℚ × ℚ × ℚ)) (ds : Option String)
    (threshold : Option ℚ) (limit offset : ℕ) : List AnomalyRec :=
  queryPipeline anomalyDateKey
    (fun a => decide (anomalyPred startK endK baseline bbox ds threshold a))
    db limit offset

/-- The filter of `TemporalDataManager.get_marine_heatwaves` (`temporal_db.py`
lines 202–235): the three-way date disjunction, the duration and percentile
conditions, and the optional bbox and dataset filters. -/
def heatwavePred (qs qe : ℤ) (bbox : Option (ℚ × ℚ × ℚ × ℚ)) (minDur : ℤ)
    (pct : ℤ) (ds : Option String) (ev : HeatwaveRow) : Prop :=
  ((qs ≤ ev.start_date ∧ ev.start_date ≤ qe) ∨
   (qs ≤ ev.end_date ∧ ev.end_date ≤ qe) ∨
   (ev.start_date ≤ qs ∧ qe ≤ ev.end_date)) ∧
  minDur ≤ ev.duration_days ∧ ev.threshold_percentile = pct ∧
  bboxOk bbox ev.lat_bin ev.lon_bin ∧ datasetOk ds ev.dataset

instance (qs qe : ℤ) (bbox : Option (ℚ × ℚ × ℚ × ℚ)) (minDur pct : ℤ)
    (ds : Option String) (ev : HeatwaveRow) :
    Decidable (heatwavePred qs qe bbox minDur pct ds ev) := by
  unfold heatwavePred; infer_instance

/-- The `WHERE` stage of `get_marine_heatwaves`, before ordering and
pagination. -/
def heatwaveFilter (events : List HeatwaveRow) (qs qe : ℤ)
    (bbox : Option (ℚ × ℚ × ℚ × ℚ)) (minDur pct : ℤ) (ds : Option String) :
    List HeatwaveRow :=
  events.filter (fun ev => decide (heatwavePred qs qe bbox minDur pct ds ev))

/-- `TemporalDataManager.get_marine_heatwaves` (`temporal_db.py` lines
174–241). -/
def getMarineHeatwaves (events : List HeatwaveRow) (qs qe : ℤ)
    (bbox : Option (ℚ × ℚ × ℚ × ℚ)) (minDur pct : ℤ) (ds : Option String)
    (limit offset : ℕ) : List HeatwaveRow :=
  paginate
    ((heatwaveFilter events qs qe bbox minDur pct ds).insertionSort
      (dateDesc (·.start_date)))
    limit offset

/-- Modelled from the spec: the overlap condition the spec states for
`getHeatwaves` — `event.start_date <= query.end_date and event.end_date >=
query.start_date`. -/
def overlapsSpec (ev : HeatwaveRow) (qs qe : ℤ) : Prop :=
  ev.start_date ≤ qe ∧ qs ≤ ev.end_date

/-! ## Heatwave Detector

`TemporalProcessor.detect_marine_heatwaves` (`temporal_processor.py` lines
274–323) is a placeholder whose body fixes `detected_events = 0`; the
detection algorithm itself is absent from the source. -/

/-- A detected marine-heatwave event (spec §3 `HeatwaveEvent`, per-location
fields only). -/
structure MHWEvent where
  start_date : ℤ
  end_date : ℤ
  duration_days : ℕ
  max_intensity_c : ℚ
  mean_intensity_c : ℚ
  cumulative_intensity : ℚ
deriving DecidableEq, Repr

/-- Maximum of a list of rationals (first element as the seed). -/
def listMax (xs : List ℚ) : ℚ :=
  xs.foldl max (xs.headD 0)

/-- Modelled from the spec: close a run — keep it only when its length
reaches `min_duration`, and compute its intensity metrics
(`intensity_i = value_i − threshold`; max / mean / cumulative). -/
def closeRun (threshold : ℚ) (minDur : ℕ) :
    Option (ℤ × ℤ × List ℚ) → List MHWEvent
  | none => []
  | some (s, _, vals) =>
      if minDur ≤ vals.length then
        let ints := vals.map (fun v => v - threshold)
        [{ start_date := s, end_date := s + vals.length - 1,
           duration_days := vals.length,
           max_intensity_c := listMax ints,
           mean_intensity_c := listMean ints,
           cumulative_intensity := ints.sum }]
      else []

/-- Modelled from the spec: the single left-to-right scan of spec §4.5 over a
chronologically ordered `(date, value)` series.  The accumulator is the
current run `(start date, last date, values so far)`; a day that does not
exceed the threshold, or a gap in the dates, closes the run; a gap followed
by an exceeding day starts a fresh run on that day; the run still open at the
end of the series is flushed. -/
def detectGo (threshold : ℚ) (minDur : ℕ) :
    Option (ℤ × ℤ × List ℚ) → List (ℤ × ℚ) → List MHWEvent
  | run, [] => closeRun threshold minDur run
  | run, (d, v) :: rest =>
      match run with
      | none =>
          if threshold < v then detectGo threshold minDur (some (d, d, [v])) rest
          else detectGo threshold minDur none rest
      | some (s, last, vals) =>
          if d = last + 1 ∧ threshold < v then
            detectGo threshold minDur (some (s, d, vals ++ [v])) rest
          else
            closeRun threshold minDur (some (s, last, vals)) ++
              (if threshold < v then
                detectGo threshold minDur (some (d, d, [v])) rest
              else detectGo threshold minDur none rest)

/-- Modelled from the spec: the Heatwave Detector of spec §4.5 — the source's
`detect_marine_heatwaves` is a placeholder (`detected_events = 0`), so the
scan algorithm (maximal threshold-exceeding runs, gap-breaking, minimum
duration, intensity metrics) is taken from the spec's own precise
description. -/
def detectHeatwaves (series : List (ℤ × ℚ)) (threshold : ℚ) (minDur : ℕ) :
    List MHWEvent :=
  detectGo threshold minDur none series

/-- The synthetic series of the spec's heatwave test property, as
`(day index, value)` pairs. -/
def demoSeries : List (ℤ × ℚ) :=
  [(0, 10), (1, 10), (2, 20), (3, 21), (4, 22), (5, 19), (6, 10), (7, 10)]

/-! ## Batch job status (`temporal_processor.py` lines 53–107,
`temporal_ingest_ersst.py` lines 318–379)

A batch run is modelled by the per-unit outcomes: for the aggregation driver
`some n` is a month whose aggregation returned `n` records and `none` is a
month whose processing threw (the `except` branch logs and `continue`s); for
the ERSST backfill `true` is a file processed successfully and `false` one
that failed. -/

/-- `TemporalProcessor.aggregate_daily_to_monthly` (`temporal_processor.py`
lines 53–107): sum the record counts of the units that succeeded — a unit
that throws is skipped and the loop continues — then record status
`"success"` when the total is positive and `"error"` otherwise. -/
def aggregateDriverRun (outcomes : List (Option ℕ)) : ℕ × String :=
  let total := (outcomes.filterMap id).sum
  (total, if 0 < total then "success" else "error")

/-- `ERSSTIngester.run_historical_backfill` final status
(`temporal_ingest_ersst.py` lines 363–374): `"success"` when no file failed,
`"partial"` when some failed and some succeeded, `"error"` when all
failed. -/
def backfillStatus (outcomes : List Bool) : String :=
  let successCount := (outcomes.filter (fun b => b)).length
  let errorCount := (outcomes.filter (fun b => !b)).length
  if errorCount = 0 then "success"
  else if 0 < successCount then "partial"
  else "error"

/-! ## Concrete sample data used by witnesses and counterexamples -/

/-- One monthly aggregate for January 2023 at bin (0, 0) with mean 10 °C. -/
def demoMonthly : List MonthlyRow :=
  [{ year := 2023, month := 1, lat_bin := 0, lon_bin := 0, avg_sst_c := some 10,
     min_sst_c := none, max_sst_c := none, std_sst_c := none, count := 1,
     dataset := "ERSST" }]

/-- One 1991–2020 baseline for January at bin (0, 0) with climatology 8 °C. -/
def demoBaselines : List BaselineRow :=
  [{ lat_bin := 0, lon_bin := 0, month := 1, baseline_period_start := 1991,
     baseline_period_end := 2020, climatology_sst_c := some 8, std_sst_c := none,
     dataset := "ERSST" }]

/-- 21 January monthly aggregates at bin (0, 0), one per year 1990–2010: a
group with exactly 21 contributing years inside the 31-year period
1990–2020. -/
def c1Rows : List MonthlyRow :=
  (List.range 21).map (fun i : ℕ =>
    { year := 1990 + (i : ℤ), month := 1, lat_bin := 0, lon_bin := 0,
      avg_sst_c := some 10, min_sst_c := none, max_sst_c := none,
      std_sst_c := none, count := 1, dataset := "ERSST" })

/-- A stored ten-day heatwave event. -/
def demoEvent : HeatwaveRow :=
  { start_date := 100, end_date := 109, duration_days := 10, lat_bin := 0,
    lon_bin := 0, max_intensity_c := 2, mean_intensity_c := 1,
    cumulative_intensity := 10, threshold_percentile := 90, dataset := "OISST" }

/-- One daily aggregate at day 5, bin (0, 0). -/
def demoDaily : List DailyRow :=
  [{ date := 5, lat_bin := 0, lon_bin := 0, avg_sst_c := some 10,
     min_sst_c := none, max_sst_c := none, std_sst_c := none, count := 1,
     dataset := "OISST" }]

/-- One stored anomaly record for January 2023. -/
def demoAnomalyRows : List AnomalyRec :=
  [{ year := 2023, month := 1, lat_bin := 0, lon_bin := 0, anomaly_c := 2,
     baseline_period := "1991-2020", dataset := "ERSST" }]

/-- A daily row at bin (0, 0) with mean 0 °C. -/
def c5RowA : DailyRow := ⟨1, 0, 0, some 0, none, none, none, 1, "OISST"⟩

/-- A daily row at bin (0, 0) with mean 2 °C. -/
def c5RowB : DailyRow := ⟨2, 0, 0, some 2, none, none, none, 1, "OISST"⟩

/-! # Theorems -/

/-! ## Helper lemmas about the binner -/

/-- Rounding an integer is the identity. -/
lemma roundHalfEven_intCast (n : ℤ) : roundHalfEven (n : ℚ) = n := by
  simp [roundHalfEven, Int.floor_intCast]

/-- The tie case: an integer plus one half rounds to the even neighbour. -/
lemma roundHalfEven_add_half (k : ℤ) :
    roundHalfEven ((k : ℚ) + 1/2) = if k % 2 = 0 then k else k + 1 := by
  have hfloor : ⌊(k : ℚ) + 1/2⌋ = k := by
    rw [Int.floor_int_add]
    norm_num
  simp only [roundHalfEven, hfloor]
  norm_num

/-- Round-half-even lands within one half of its input. -/
lemma abs_sub_roundHalfEven_le (x : ℚ) : |x - (roundHalfEven x : ℚ)| ≤ 1/2 := by
  have h0 : ((⌊x⌋ : ℚ)) ≤ x := Int.floor_le x
  have h1 : x < (⌊x⌋ : ℚ) + 1 := Int.lt_floor_add_one x
  simp only [roundHalfEven]
  split_ifs <;> rw [abs_le] <;> constructor <;> push_cast <;> linarith

/-- Applied to a bin multiple, the binner is the identity. -/
lemma binQ_idem (x res : ℚ) (h : res ≠ 0) : binQ (binQ x res) res = binQ x res := by
  unfold binQ
  rw [mul_div_cancel_right₀ _ h, roundHalfEven_intCast]

/-- Zero is a fixed point of the binner at every resolution. -/
lemma binQ_zero (res : ℚ) : binQ 0 res = 0 := by
  unfold binQ
  rw [zero_div, show ((0 : ℚ)) = ((0 : ℤ) : ℚ) by norm_num, roundHalfEven_intCast]
  norm_num

/-! ## Helper lemmas about grouping and filtering -/

/-- A key reached by some row is a group of `groupByKey`, paired with exactly
the rows filtered to that key. -/
lemma mem_groupByKey {α κ : Type} [DecidableEq κ] (key : α → κ) (rows : List α)
    (k : κ) (hk : ∃ r ∈ rows, key r = k) :
    (k, rows.filter (fun r => decide (key r = k))) ∈ groupByKey key rows := by
  unfold groupByKey
  apply List.mem_map.mpr
  refine ⟨k, ?_, rfl⟩
  rw [List.mem_dedup]
  obtain ⟨r, hr, hkey⟩ := hk
  exact List.mem_map.mpr ⟨r, hr, hkey⟩

/-- Every group of `groupByKey` is the filter of the rows to its key. -/
lemma eq_of_mem_groupByKey {α κ : Type} [DecidableEq κ] {key : α → κ}
    {rows : List α} {kg : κ × List α} (h : kg ∈ groupByKey key rows) :
    kg.2 = rows.filter (fun r => decide (key r = kg.1)) := by
  unfold groupByKey at h
  obtain ⟨k, hk, rfl⟩ := List.mem_map.mp h
  rfl

/-- Every group key of `groupByKey` is reached by some row. -/
lemma key_mem_of_mem_groupByKey {α κ : Type} [DecidableEq κ] {key : α → κ}
    {rows : List α} {kg : κ × List α} (h : kg ∈ groupByKey key rows) :
    ∃ r ∈ rows, key r = kg.1 := by
  unfold groupByKey at h
  obtain ⟨k, hk, rfl⟩ := List.mem_map.mp h
  rw [List.mem_dedup] at hk
  exact List.mem_map.mp hk

/-- Two stacked decidable filters equal one filter on the conjunction. -/
lemma filter_filter_decide {α : Type} (p q : α → Prop) [DecidablePred p]
    [DecidablePred q] (l : List α) :
    (l.filter (fun a => decide (p a))).filter (fun a => decide (q a)) =
      l.filter (fun a => decide (p a ∧ q a)) := by
  rw [List.filter_filter]
  apply List.filter_congr
  intro a _
  simp [Bool.and_comm]

/-! ## C8 — Spatial Binner tie-breaking -/

/-- C8 counterexample: at latitude 0.5 with resolution 1 the source's binner
(round-half-to-even) yields bin 0, while the claimed round-half-up rule
yields bin 1 — halfway inputs are not always assigned to the higher bin. -/
theorem c8_binner_half_up_refuted :
    binQ (1/2) 1 = 0 ∧ ((roundHalfUpSpec ((1 : ℚ)/2 / 1) : ℚ) * 1 = 1) ∧
      (0 : ℚ) ≠ 1 := by
  refine ⟨?_, ?_, by norm_num⟩
  · have h : ((1 : ℚ)/2 / 1) = ((0 : ℤ) : ℚ) + 1/2 := by norm_num
    unfold binQ
    rw [h, roundHalfEven_add_half]
    norm_num
  · unfold roundHalfUpSpec
    norm_num

/-- C8 amended: the binner computes `lat_bin = round(lat / resolution) *
resolution` where `round` is nearest-integer with ties to the **even**
integer (Python `round`, PostgreSQL `ROUND` on double precision): a value
exactly halfway between two bins goes to the even multiple, and `round`
always lands within half a unit of its argument — deterministic, so repeated
runs still bin identically. -/
theorem c8_binner_ties_to_even (k : ℤ) (res : ℚ) (h : 0 < res) :
    binQ (((k : ℚ) + 1/2) * res) res =
        ((if k % 2 = 0 then k else k + 1 : ℤ) : ℚ) * res
    ∧ (if k % 2 = 0 then k else k + 1) % 2 = 0
    ∧ (∀ x : ℚ, |x - (roundHalfEven x : ℚ)| ≤ 1/2) := by
  have hne : res ≠ 0 := ne_of_gt h
  refine ⟨?_, ?_, abs_sub_roundHalfEven_le⟩
  · unfold binQ
    rw [mul_div_cancel_right₀ _ hne, roundHalfEven_add_half]
  · rcases Int.emod_two_eq_zero_or_one k with h2 | h2 <;> simp [h2]
    omega

/-- Witness for C8 at `k = 1`, `res = 2`: 1.5·2 = 3 bins to 4 = 2·2. -/
theorem c8_binner_ties_to_even_witness :
    (0 : ℚ) < 2 ∧
      (binQ ((((1 : ℤ) : ℚ) + 1/2) * 2) 2 =
          ((if (1 : ℤ) % 2 = 0 then (1 : ℤ) else 1 + 1 : ℤ) : ℚ) * 2
        ∧ (if (1 : ℤ) % 2 = 0 then (1 : ℤ) else 1 + 1) % 2 = 0
        ∧ (∀ x : ℚ, |x - (roundHalfEven x : ℚ)| ≤ 1/2)) :=
  ⟨by norm_num, c8_binner_ties_to_even 1 2 (by norm_num)⟩

/-! ## C9 — binning idempotence -/

/-- C9: binning an already-binned latitude is a no-op:
`bin(bin_lat(lat, res), lon, res) = bin(lat, lon, res)` for every positive
resolution. -/
theorem c9_binning_idempotent (lat lon res : ℚ) (h : 0 < res) :
    binPair (binQ lat res) lon res = binPair lat lon res := by
  unfold binPair
  rw [binQ_idem lat res (ne_of_gt h)]

/-- Witness for C9 at `lat = 1/2`, `lon = 7/4`, `res = 1`. -/
theorem c9_binning_idempotent_witness :
    (0 : ℚ) < 1 ∧ binPair (binQ (1/2) 1) (7/4) 1 = binPair (1/2) (7/4) 1 :=
  ⟨by norm_num, c9_binning_idempotent (1/2) (7/4) 1 (by norm_num)⟩

/-! ## C2 — Heatwave Detector on the synthetic series

In the series `[10,10,20,21,22,19,10,10]` with threshold 15, the value 19 at
index 5 also exceeds the threshold, so the maximal exceeding run is indices
2–5, not 2–4 as claimed. -/

/-- C2 counterexample: the spec-modelled detector on the synthetic series
with threshold 15 and min_duration 3 detects one event spanning indices 2–5
with duration 4 — not the claimed span 2–4 with duration 3 (the value 19 at
index 5 exceeds 15). -/
theorem c2_heatwave_span_refuted :
    (detectHeatwaves demoSeries 15 3).map
        (fun e => (e.start_date, e.end_date, e.duration_days)) = [(2, 5, 4)]
    ∧ ((2, 5, 4) : ℤ × ℤ × ℕ) ≠ ((2, 4, 3) : ℤ × ℤ × ℕ) := by
  constructor
  · norm_num [detectHeatwaves, demoSeries, detectGo, closeRun, listMax, listMean]
  · decide

/-- C2 amended: on the synthetic series with threshold 15 and min_duration 3
exactly one event is detected, spanning indices 2–5 (values 20, 21, 22, 19)
with `duration_days = 4`, intensities `max = 7`, `mean = 5.5`,
`cumulative = 22`; the run is maximal: every day in 2–5 exceeds the
threshold and the bounding days 1 and 6 do not. -/
theorem c2_heatwave_detection_amended :
    detectHeatwaves demoSeries 15 3 =
      [{ start_date := 2, end_date := 5, duration_days := 4,
         max_intensity_c := 7, mean_intensity_c := 11/2,
         cumulative_intensity := 22 }]
    ∧ (demoSeries.filter (fun p => decide (2 ≤ p.1 ∧ p.1 ≤ 5))).all
        (fun p => decide ((15 : ℚ) < p.2)) = true
    ∧ (demoSeries.filter (fun p => decide (p.1 = 1 ∨ p.1 = 6))).all
        (fun p => decide (p.2 ≤ (15 : ℚ))) = true := by
  refine ⟨?_, ?_, ?_⟩
  · norm_num [detectHeatwaves, demoSeries, detectGo, closeRun, listMax, listMean]
  · decide
  · decide

/-! ## C7 — batch status of partial runs -/

/-- C7 counterexample: an aggregation run over two months in which the first
month's processing throws and the second succeeds with 5 records gets job
status `"success"`, not the claimed `"partial"`. -/
theorem c7_batch_status_refuted :
    aggregateDriverRun [none, some 5] = (5, "success")
    ∧ "success" ≠ "partial" := by
  constructor
  · rfl
  · decide

/-- C7 amended: the `TemporalProcessor` aggregation drivers never record
`"partial"`: a unit failure is skipped and processing continues through the
remaining units (the total is the sum over all succeeding units on both
sides of a failure), and any run with at least one unit returning records
reports `"success"` even when other units threw.  Only the ERSST historical
backfill records `"partial"` for a mixed run, after attempting every
file. -/
theorem c7_batch_status_amended :
    (∀ outcomes : List (Option ℕ), (aggregateDriverRun outcomes).2 ≠ "partial")
    ∧ (∀ pre post : List (Option ℕ),
        (aggregateDriverRun (pre ++ none :: post)).1 =
          (aggregateDriverRun pre).1 + (aggregateDriverRun post).1)
    ∧ (∀ outcomes : List (Option ℕ), (∃ n, some n ∈ outcomes ∧ 0 < n) →
        (aggregateDriverRun outcomes).2 = "success")
    ∧ (∀ outcomes : List Bool, (∃ b ∈ outcomes, b = true) →
        (∃ b ∈ outcomes, b = false) → backfillStatus outcomes = "partial") := by
  refine ⟨?_, ?_, ?_, ?_⟩
  · intro o
    unfold aggregateDriverRun
    dsimp only
    split_ifs <;> decide
  · intro pre post
    simp [aggregateDriverRun]
  · rintro o ⟨n, hmem, hn⟩
    have h1 : n ∈ o.filterMap id := List.mem_filterMap.mpr ⟨some n, hmem, rfl⟩
    have h2 : n ≤ (o.filterMap id).sum :=
      List.single_le_sum (fun x _ => Nat.zero_le x) n h1
    have h3 : 0 < (o.filterMap id).sum := lt_of_lt_of_le hn h2
    unfold aggregateDriverRun
    dsimp only
    rw [if_pos h3]
  · rintro o ⟨bt, hbt, hbt2⟩ ⟨bf, hbf, hbf2⟩
    subst hbt2
    subst hbf2
    have ht : true ∈ o.filter (fun b => b) := List.mem_filter.mpr ⟨hbt, rfl⟩
    have hf : false ∈ o.filter (fun b => !b) := List.mem_filter.mpr ⟨hbf, rfl⟩
    have h1 : 0 < (o.filter (fun b => b)).length := List.length_pos_of_mem ht
    have h2 : 0 < (o.filter (fun b => !b)).length := List.length_pos_of_mem hf
    unfold backfillStatus
    dsimp only
    rw [if_neg (by omega), if_pos h1]

/-- Witness for C7 amended at the two concrete runs `[none, some 5]` and
`[true, false]`. -/
theorem c7_batch_status_amended_witness :
    (aggregateDriverRun [none, some 5]).2 = "success"
    ∧ backfillStatus [true, false] = "partial" :=
  ⟨c7_batch_status_amended.2.2.1 [none, some 5] ⟨5, by simp, by norm_num⟩,
   c7_batch_status_amended.2.2.2 [true, false] ⟨true, by simp, rfl⟩
     ⟨false, by simp, rfl⟩⟩

/-! ## C5 — the aggregator's std statistic -/

/-- C5 counterexample: aggregating the group with means {0 °C, 2 °C} emits
`std² = 2` (PostgreSQL `STDDEV` is the sample standard deviation) while the
population variance of the group is 1; and a singleton group emits `NULL`,
not zero. -/
theorem c5_std_population_refuted :
    (∃ rec ∈ aggregateDailyToMonthly [c5RowA, c5RowB] 2020 1 1 31 "OISST" 1,
        rec.std_sst_c = some 2)
    ∧ popVarianceSpec [0, 2] = 1
    ∧ (∃ rec ∈ aggregateDailyToMonthly [c5RowA] 2020 1 1 31 "OISST" 1,
        rec.std_sst_c = none)
    ∧ some (2 : ℚ) ≠ some (1 : ℚ)
    ∧ (none : Option ℚ) ≠ some (0 : ℚ) := by
  have hqA : (List.filter (fun r => decide (qualifiesDaily 1 31 "OISST" r))
      [c5RowA, c5RowB]) = [c5RowA, c5RowB] := by
    simp [c5RowA, c5RowB, qualifiesDaily, List.filter_cons]
  have hgrpA : (List.filter (fun r => decide (dailyKey 1 r = ((0 : ℚ), (0 : ℚ))))
      [c5RowA, c5RowB]) = [c5RowA, c5RowB] := by
    simp [c5RowA, c5RowB, dailyKey, binQ_zero, List.filter_cons]
  have hqB : (List.filter (fun r => decide (qualifiesDaily 1 31 "OISST" r))
      [c5RowA]) = [c5RowA] := by
    simp [c5RowA, qualifiesDaily, List.filter_cons]
  have hgrpB : (List.filter (fun r => decide (dailyKey 1 r = ((0 : ℚ), (0 : ℚ))))
      [c5RowA]) = [c5RowA] := by
    simp [c5RowA, dailyKey, binQ_zero, List.filter_cons]
  refine ⟨?_, ?_, ?_, by simp, by simp⟩
  · refine ⟨monthlyAggOfGroup 2020 1 "OISST" ((0 : ℚ), (0 : ℚ)) [c5RowA, c5RowB],
      ?_, ?_⟩
    · unfold aggregateDailyToMonthly
      rw [hqA]
      have hmem := mem_groupByKey (dailyKey 1) [c5RowA, c5RowB] ((0 : ℚ), (0 : ℚ))
        ⟨c5RowA, by simp, by simp [c5RowA, dailyKey, binQ_zero]⟩
      rw [hgrpA] at hmem
      exact List.mem_map.mpr ⟨(((0 : ℚ), (0 : ℚ)), [c5RowA, c5RowB]), hmem, rfl⟩
    · show (monthlyAggOfGroup 2020 1 "OISST" ((0 : ℚ), (0 : ℚ))
          [c5RowA, c5RowB]).std_sst_c = some 2
      simp [monthlyAggOfGroup, c5RowA, c5RowB]
      norm_num [sqlStddevVar, listMean]
  · norm_num [popVarianceSpec, listMean]
  · refine ⟨monthlyAggOfGroup 2020 1 "OISST" ((0 : ℚ), (0 : ℚ)) [c5RowA], ?_, ?_⟩
    · unfold aggregateDailyToMonthly
      rw [hqB]
      have hmem := mem_groupByKey (dailyKey 1) [c5RowA] ((0 : ℚ), (0 : ℚ))
        ⟨c5RowA, by simp, by simp [c5RowA, dailyKey, binQ_zero]⟩
      rw [hgrpB] at hmem
      exact List.mem_map.mpr ⟨(((0 : ℚ), (0 : ℚ)), [c5RowA]), hmem, rfl⟩
    · show (monthlyAggOfGroup 2020 1 "OISST" ((0 : ℚ), (0 : ℚ))
          [c5RowA]).std_sst_c = none
      simp [monthlyAggOfGroup, c5RowA]
      norm_num [sqlStddevVar]

/-- C5 amended: in both SQL rollups the emitted `std` is PostgreSQL
`STDDEV` — the **sample** standard deviation of the group's non-null mean
values — which is `NULL` (not zero) for a one-row group and satisfies
`sample_variance · (n − 1) = population_variance · n` for `n ≥ 2`; only the
ingesters' in-file aggregation uses the population standard deviation (with
`0.0` for a singleton). -/
theorem c5_std_amended :
    (∀ (db : List DailyRow) (year month startD endD : ℤ) (ds : String) (res : ℚ),
      ∀ rec ∈ aggregateDailyToMonthly db year month startD endD ds res,
        rec.std_sst_c = sqlStddevVar ((db.filter (fun r =>
          decide (qualifiesDaily startD endD ds r ∧
            dailyKey res r = (rec.lat_bin, rec.lon_bin)))).filterMap (·.avg_sst_c)))
    ∧ (∀ (db : List MonthlyRow) (year : ℤ) (ds : String) (res : ℚ),
      ∀ rec ∈ aggregateMonthlyToYearly db year ds res,
        rec.std_sst_c = sqlStddevVar ((db.filter (fun m =>
          decide (qualifiesMonthlyOfYear year ds m ∧
            monthlySpatialKey res m = (rec.lat_bin, rec.lon_bin)))).filterMap (·.avg_sst_c)))
    ∧ (∀ xs : List ℚ, xs.length = 1 → sqlStddevVar xs = none)
    ∧ (∀ xs : List ℚ, 2 ≤ xs.length → ∃ v, sqlStddevVar xs = some v ∧
        v * ((xs.length : ℚ) - 1) = popVarianceSpec xs * (xs.length : ℚ))
    ∧ (∀ xs : List ℚ, xs ≠ [] → ingesterStdVar xs = popVarianceSpec xs) := by
  refine ⟨?_, ?_, ?_, ?_, ?_⟩
  · intro db year month startD endD ds res rec hrec
    simp only [aggregateDailyToMonthly] at hrec
    obtain ⟨kg, hkg, rfl⟩ := List.mem_map.mp hrec
    show (monthlyAggOfGroup year month ds kg.1 kg.2).std_sst_c =
      sqlStddevVar ((db.filter (fun r =>
        decide (qualifiesDaily startD endD ds r ∧
          dailyKey res r = kg.1))).filterMap (·.avg_sst_c))
    rw [← filter_filter_decide (qualifiesDaily startD endD ds)
      (fun r => dailyKey res r = kg.1) db, ← eq_of_mem_groupByKey hkg]
    rfl
  · intro db year ds res rec hrec
    simp only [aggregateMonthlyToYearly] at hrec
    obtain ⟨kg, hkg, rfl⟩ := List.mem_map.mp hrec
    show (yearlyAggOfGroup year ds kg.1 kg.2).std_sst_c =
      sqlStddevVar ((db.filter (fun m =>
        decide (qualifiesMonthlyOfYear year ds m ∧
          monthlySpatialKey res m = kg.1))).filterMap (·.avg_sst_c))
    rw [← filter_filter_decide (qualifiesMonthlyOfYear year ds)
      (fun m => monthlySpatialKey res m = kg.1) db, ← eq_of_mem_groupByKey hkg]
    rfl
  · intro xs h1
    unfold sqlStddevVar
    rw [if_pos (by omega)]
  · intro xs h2
    have hn0 : ((xs.length : ℚ)) ≠ 0 := Nat.cast_ne_zero.mpr (by omega)
    have hc : (2 : ℚ) ≤ (xs.length : ℚ) := by exact_mod_cast h2
    have hn1 : ((xs.length : ℚ) - 1) ≠ 0 := by intro h; linarith
    refine ⟨((xs.map (fun x => (x - listMean xs) ^ 2)).sum) / ((xs.length : ℚ) - 1),
      ?_, ?_⟩
    · unfold sqlStddevVar
      rw [if_neg (by omega)]
    · unfold popVarianceSpec
      rw [if_neg (by omega), div_mul_cancel₀ _ hn1, div_mul_cancel₀ _ hn0]
  · intro xs hne
    match xs with
    | [] => exact absurd rfl hne
    | [x] => norm_num [ingesterStdVar, popVarianceSpec, listMean]
    | x :: y :: ys =>
      unfold ingesterStdVar popVarianceSpec
      rw [if_pos (by simp), if_neg (by simp)]

/-- Witness for C5 amended: the singleton, pair and ingester clauses at
`[5]`, `[0, 2]` and `[1]`, and the rollup clause at the one-group database
`[c5RowA]`. -/
theorem c5_std_amended_witness :
    sqlStddevVar [(5 : ℚ)] = none
    ∧ (∃ v, sqlStddevVar [(0 : ℚ), 2] = some v ∧
        v * ((([(0 : ℚ), 2].length : ℚ)) - 1) =
          popVarianceSpec [0, 2] * (([(0 : ℚ), 2].length : ℚ)))
    ∧ ingesterStdVar [(1 : ℚ)] = popVarianceSpec [1]
    ∧ (monthlyAggOfGroup 2020 1 "OISST" ((0 : ℚ), (0 : ℚ)) [c5RowA]).std_sst_c =
        sqlStddevVar (([c5RowA].filter (fun r =>
          decide (qualifiesDaily 1 31 "OISST" r ∧ dailyKey 1 r =
            ((monthlyAggOfGroup 2020 1 "OISST" ((0 : ℚ), (0 : ℚ))
              [c5RowA]).lat_bin,
             (monthlyAggOfGroup 2020 1 "OISST" ((0 : ℚ), (0 : ℚ))
              [c5RowA]).lon_bin)))).filterMap (·.avg_sst_c)) := by
  refine ⟨c5_std_amended.2.2.1 [5] rfl,
    c5_std_amended.2.2.2.1 [0, 2] (by norm_num),
    c5_std_amended.2.2.2.2 [1] (by simp), ?_⟩
  apply c5_std_amended.1 [c5RowA] 2020 1 1 31 "OISST" 1
  unfold aggregateDailyToMonthly
  rw [show (List.filter (fun r => decide (qualifiesDaily 1 31 "OISST" r)) [c5RowA])
      = [c5RowA] by simp [c5RowA, qualifiesDaily, List.filter_cons]]
  have hmem := mem_groupByKey (dailyKey 1) [c5RowA] ((0 : ℚ), (0 : ℚ))
    ⟨c5RowA, by simp, by simp [c5RowA, dailyKey, binQ_zero]⟩
  rw [show (List.filter (fun r => decide (dailyKey 1 r = ((0 : ℚ), (0 : ℚ))))
      [c5RowA]) = [c5RowA] by simp [c5RowA, dailyKey, binQ_zero, List.filter_cons]]
    at hmem
  exact List.mem_map.mpr ⟨(((0 : ℚ), (0 : ℚ)), [c5RowA]), hmem, rfl⟩

/-! ## C3 — the anomaly invariant -/

/-- C3: every emitted anomaly record joins a monthly aggregate and a baseline
matching on `(lat_bin, lon_bin, month)` and the baseline period, and its
`anomaly_c` equals the aggregate's mean minus the baseline's climatological
mean — exactly, hence within `1e-9`. -/
theorem c3_anomaly_invariant (monthly : List MonthlyRow)
    (baselines : List BaselineRow) (targetYear : ℤ) (period : String)
    (sy ey : ℤ) (ds : String) :
    ∀ rec ∈ calculateTemperatureAnomalies monthly baselines targetYear period sy ey ds,
      ∃ m ∈ monthly, ∃ b ∈ baselines,
        m.year = targetYear ∧ m.dataset = ds ∧
        rec.year = m.year ∧ rec.month = m.month ∧
        rec.lat_bin = m.lat_bin ∧ rec.lon_bin = m.lon_bin ∧
        baselineMatches m sy ey b ∧
        ∃ a c, m.avg_sst_c = some a ∧ b.climatology_sst_c = some c ∧
          |rec.anomaly_c - (a - c)| < 1/1000000000 := by
  intro rec hrec
  simp only [calculateTemperatureAnomalies] at hrec
  rw [List.mem_flatMap] at hrec
  obtain ⟨m, hm, hrec2⟩ := hrec
  split at hrec2
  case isFalse => exact absurd hrec2 (List.not_mem_nil rec)
  case isTrue h =>
    rw [List.mem_filterMap] at hrec2
    obtain ⟨b, hb, hfb⟩ := hrec2
    split at hfb
    case isFalse => exact absurd hfb (Option.noConfusion)
    case isTrue hq =>
      obtain ⟨a, ha⟩ := Option.ne_none_iff_exists'.mp h.2.2
      obtain ⟨c, hc⟩ := Option.ne_none_iff_exists'.mp hq.2
      obtain rfl := Option.some.inj hfb
      refine ⟨m, hm, b, hb, h.1, h.2.1, rfl, rfl, rfl, rfl, hq.1, a, c, ha, hc, ?_⟩
      simp [ha, hc]

/-- Witness for C3 at the one-row demo database: the emitted record has
`anomaly_c = 10 − 8`. -/
theorem c3_anomaly_invariant_witness :
    ∃ m ∈ demoMonthly, ∃ b ∈ demoBaselines,
      m.year = 2023 ∧ m.dataset = "ERSST" ∧
      (⟨2023, 1, 0, 0, 2, "1991-2020", "ERSST"⟩ : AnomalyRec).year = m.year ∧
      (⟨2023, 1, 0, 0, 2, "1991-2020", "ERSST"⟩ : AnomalyRec).month = m.month ∧
      (⟨2023, 1, 0, 0, 2, "1991-2020", "ERSST"⟩ : AnomalyRec).lat_bin = m.lat_bin ∧
      (⟨2023, 1, 0, 0, 2, "1991-2020", "ERSST"⟩ : AnomalyRec).lon_bin = m.lon_bin ∧
      baselineMatches m 1991 2020 b ∧
      ∃ a c, m.avg_sst_c = some a ∧ b.climatology_sst_c = some c ∧
        |(⟨2023, 1, 0, 0, 2, "1991-2020", "ERSST"⟩ : AnomalyRec).anomaly_c -
          (a - c)| < 1/1000000000 :=
  c3_anomaly_invariant demoMonthly demoBaselines 2023 "1991-2020" 1991 2020 "ERSST"
    ⟨2023, 1, 0, 0, 2, "1991-2020", "ERSST"⟩
    (by
      simp [calculateTemperatureAnomalies, demoMonthly, demoBaselines,
        baselineMatches]
      norm_num)

/-! ## C6 — missing baselines are skipped, matches still emitted -/

/-- C6: a `(lat_bin, lon_bin, month)` with no matching baseline for the
requested period and dataset yields no anomaly record (the inner join
produces nothing, and the model is a total function, so no error either),
while every monthly aggregate with a matching baseline is emitted. -/
theorem c6_missing_baseline_skipped (monthly : List MonthlyRow)
    (baselines : List BaselineRow) (targetYear : ℤ) (period : String)
    (sy ey : ℤ) (ds : String) :
    (∀ lat lon : ℚ, ∀ mo : ℤ,
      (¬ ∃ b ∈ baselines, b.lat_bin = lat ∧ b.lon_bin = lon ∧ b.month = mo ∧
          b.baseline_period_start = sy ∧ b.baseline_period_end = ey ∧
          b.dataset = ds) →
      ∀ rec ∈ calculateTemperatureAnomalies monthly baselines targetYear period sy ey ds,
        ¬(rec.lat_bin = lat ∧ rec.lon_bin = lon ∧ rec.month = mo))
    ∧ (∀ m ∈ monthly, m.year = targetYear → m.dataset = ds →
       ∀ a, m.avg_sst_c = some a →
       ∀ b ∈ baselines, baselineMatches m sy ey b →
       ∀ c, b.climatology_sst_c = some c →
        ({ year := m.year, month := m.month, lat_bin := m.lat_bin,
           lon_bin := m.lon_bin, anomaly_c := a - c, baseline_period := period,
           dataset := m.dataset } : AnomalyRec)
          ∈ calculateTemperatureAnomalies monthly baselines targetYear period sy ey ds) := by
  constructor
  · intro lat lon mo hnob rec hrec hkey
    simp only [calculateTemperatureAnomalies] at hrec
    rw [List.mem_flatMap] at hrec
    obtain ⟨m, hm, hrec2⟩ := hrec
    split at hrec2
    case isFalse => exact absurd hrec2 (List.not_mem_nil rec)
    case isTrue h =>
      rw [List.mem_filterMap] at hrec2
      obtain ⟨b, hb, hfb⟩ := hrec2
      split at hfb
      case isFalse => exact absurd hfb (Option.noConfusion)
      case isTrue hq =>
        obtain rfl := Option.some.inj hfb
        obtain ⟨hlat, hlon, hmo⟩ := hkey
        obtain ⟨hmlat, hmlon, hmmo, hps, hpe, hbds⟩ := hq.1
        exact hnob ⟨b, hb, by rw [← hmlat]; exact hlat,
          by rw [← hmlon]; exact hlon, by rw [← hmmo]; exact hmo, hps, hpe,
          by rw [hbds, h.2.1]⟩
  · intro m hm hy hds a ha b hb hmatch c hc
    simp only [calculateTemperatureAnomalies]
    rw [List.mem_flatMap]
    refine ⟨m, hm, ?_⟩
    rw [if_pos ⟨hy, hds, by simp [ha]⟩, List.mem_filterMap]
    refine ⟨b, hb, ?_⟩
    rw [if_pos ⟨hmatch, by simp [hc]⟩]
    simp [ha, hc]

/-- Witness for C6: with no baselines nothing is emitted for bin
(0, 0, month 1); with the matching demo baseline the record is emitted. -/
theorem c6_missing_baseline_skipped_witness :
    (∀ rec ∈ calculateTemperatureAnomalies demoMonthly [] 2023 "1991-2020" 1991 2020 "ERSST",
        ¬(rec.lat_bin = 0 ∧ rec.lon_bin = 0 ∧ rec.month = 1))
    ∧ ({ year := 2023, month := 1, lat_bin := 0, lon_bin := 0,
         anomaly_c := (10 : ℚ) - 8, baseline_period := "1991-2020",
         dataset := "ERSST" } : AnomalyRec)
        ∈ calculateTemperatureAnomalies demoMonthly demoBaselines 2023
            "1991-2020" 1991 2020 "ERSST" := by
  constructor
  · exact (c6_missing_baseline_skipped demoMonthly [] 2023 "1991-2020" 1991 2020
      "ERSST").1 0 0 1 (by simp)
  · have h := (c6_missing_baseline_skipped demoMonthly demoBaselines 2023
      "1991-2020" 1991 2020 "ERSST").2
      ⟨2023, 1, 0, 0, some 10, none, none, none, 1, "ERSST"⟩
      (by simp [demoMonthly]) rfl rfl 10 rfl
      ⟨0, 0, 1, 1991, 2020, some 8, none, "ERSST"⟩
      (by simp [demoBaselines]) ⟨rfl, rfl, rfl, rfl, rfl, rfl⟩ 8 rfl
    exact h

/-! ## C4 — heatwave window overlap -/

/-- C4: for a well-formed event (`start_date ≤ end_date`) and a well-formed
query window (`start_date ≤ end_date`, which the API boundary guarantees by
rejecting inverted ranges), the `get_marine_heatwaves` filter keeps an event
exactly when its interval overlaps the query window (`start ≤ query_end` and
`end ≥ query_start`) and the duration, percentile, bbox and dataset
conditions hold — the source's three-way date disjunction is equivalent to
interval overlap. -/
theorem c4_heatwave_overlap_iff (events : List HeatwaveRow) (qs qe : ℤ)
    (bbox : Option (ℚ × ℚ × ℚ × ℚ)) (minDur pct : ℤ) (ds : Option String)
    (ev : HeatwaveRow) (h : ev.start_date ≤ ev.end_date) (hw : qs ≤ qe) :
    ev ∈ heatwaveFilter events qs qe bbox minDur pct ds ↔
      ev ∈ events ∧ overlapsSpec ev qs qe ∧ minDur ≤ ev.duration_days ∧
        ev.threshold_percentile = pct ∧ bboxOk bbox ev.lat_bin ev.lon_bin ∧
        datasetOk ds ev.dataset := by
  unfold heatwaveFilter
  rw [List.mem_filter, decide_eq_true_eq]
  unfold heatwavePred overlapsSpec
  constructor
  · rintro ⟨hmem, hdate, hdur, hpct, hbb, hds⟩
    refine ⟨hmem, ⟨?_, ?_⟩, hdur, hpct, hbb, hds⟩ <;>
      rcases hdate with ⟨h1, h2⟩ | ⟨h1, h2⟩ | ⟨h1, h2⟩ <;> omega
  · rintro ⟨hmem, ⟨h1, h2⟩, hdur, hpct, hbb, hds⟩
    refine ⟨hmem, ?_, hdur, hpct, hbb, hds⟩
    omega

/-- Witness for C4 at the demo event and window [105, 120]. -/
theorem c4_heatwave_overlap_iff_witness :
    demoEvent.start_date ≤ demoEvent.end_date ∧ (105 : ℤ) ≤ 120 ∧
      (demoEvent ∈ heatwaveFilter [demoEvent] 105 120 none 5 90 none ↔
        demoEvent ∈ [demoEvent] ∧ overlapsSpec demoEvent 105 120 ∧
          (5 : ℤ) ≤ demoEvent.duration_days ∧
          demoEvent.threshold_percentile = 90 ∧
          bboxOk none demoEvent.lat_bin demoEvent.lon_bin ∧
          datasetOk none demoEvent.dataset) :=
  ⟨by decide, by decide,
   c4_heatwave_overlap_iff [demoEvent] 105 120 none 5 90 none demoEvent
     (by decide) (by decide)⟩

/-! ## C10 — query reads: descending order, offset, limit -/

/-- Every read pipeline output is sorted by the date key descending. -/
lemma queryPipeline_pairwise {α : Type} (key : α → ℤ) (p : α → Bool)
    (rows : List α) (limit offset : ℕ) :
    List.Pairwise (fun a b => key b ≤ key a)
      (queryPipeline key p rows limit offset) := by
  have hs : List.Sorted (dateDesc key) ((rows.filter p).insertionSort (dateDesc key)) :=
    List.sorted_insertionSort _ _
  have hsub : (queryPipeline key p rows limit offset).Sublist
      ((rows.filter p).insertionSort (dateDesc key)) :=
    (List.take_sublist _ _).trans (List.drop_sublist _ _)
  exact List.Pairwise.sublist hsub hs

/-- The pipeline returns `min limit (matches − offset)` records. -/
lemma queryPipeline_length {α : Type} (key : α → ℤ) (p : α → Bool)
    (rows : List α) (limit offset : ℕ) :
    (queryPipeline key p rows limit offset).length =
      min limit ((rows.filter p).length - offset) := by
  unfold queryPipeline paginate
  rw [List.length_take, List.length_drop,
    (List.perm_insertionSort (dateDesc key) (rows.filter p)).length_eq]

/-- Every record the pipeline returns is a matching input row. -/
lemma queryPipeline_mem {α : Type} (key : α → ℤ) (p : α → Bool)
    (rows : List α) (limit offset : ℕ) {x : α}
    (hx : x ∈ queryPipeline key p rows limit offset) : x ∈ rows ∧ p x = true := by
  have hsub : (queryPipeline key p rows limit offset).Sublist
      ((rows.filter p).insertionSort (dateDesc key)) :=
    (List.take_sublist _ _).trans (List.drop_sublist _ _)
  have h1 : x ∈ (rows.filter p).insertionSort (dateDesc key) := hsub.subset hx
  have h2 : x ∈ rows.filter p :=
    (List.perm_insertionSort (dateDesc key) (rows.filter p)).mem_iff.mp h1
  exact List.mem_filter.mp h2

/-- The `i`-th returned record is the `(offset + i)`-th of the descending
ordering of the matches: exactly the first `offset` records are skipped. -/
lemma queryPipeline_getElem {α : Type} (key : α → ℤ) (p : α → Bool)
    (rows : List α) (limit offset : ℕ) (i : ℕ) (hi : i < limit) :
    (queryPipeline key p rows limit offset)[i]? =
      ((rows.filter p).insertionSort (dateDesc key))[offset + i]? := by
  unfold queryPipeline paginate
  rw [List.getElem?_take, if_pos hi, List.getElem?_drop]

/-- C10: each of the three reads (`get_temperature_data` on the daily table,
`get_temperature_anomalies`, `get_marine_heatwaves`) returns records sorted
by date (start_date for heatwaves) in descending order, returns exactly
`min(limit, matches − offset)` records — the first `offset` of the ordering
are skipped — and returns only stored records satisfying the query
filter. -/
theorem c10_reads_sorted_paginated
    (daily : List DailyRow) (anoms : List AnomalyRec) (events : List HeatwaveRow)
    (startD endD startK endK qs qe : ℤ) (baseline : String)
    (b1 b2 b3 : Option (ℚ × ℚ × ℚ × ℚ)) (d1 d2 d3 : Option String)
    (threshold : Option ℚ) (minDur pct : ℤ) (limit offset : ℕ) :
    (List.Pairwise (fun a b : DailyRow => b.date ≤ a.date)
        (getTemperatureDataDaily daily startD endD b1 d1 limit offset)
      ∧ (getTemperatureDataDaily daily startD endD b1 d1 limit offset).length =
          min limit ((daily.filter (fun r =>
            decide (tempDataPred startD endD b1 d1 r))).length - offset)
      ∧ (∀ r ∈ getTemperatureDataDaily daily startD endD b1 d1 limit offset,
          r ∈ daily ∧ tempDataPred startD endD b1 d1 r)
      ∧ ∀ i : ℕ, i < limit →
          (getTemperatureDataDaily daily startD endD b1 d1 limit offset)[i]? =
            ((daily.filter (fun r =>
              decide (tempDataPred startD endD b1 d1 r))).insertionSort
                (dateDesc (·.date)))[offset + i]?)
    ∧ (List.Pairwise (fun a b : AnomalyRec => anomalyDateKey b ≤ anomalyDateKey a)
        (getTemperatureAnomalies anoms startK endK baseline b2 d2 threshold limit offset)
      ∧ (getTemperatureAnomalies anoms startK endK baseline b2 d2 threshold limit offset).length =
          min limit ((anoms.filter (fun a =>
            decide (anomalyPred startK endK baseline b2 d2 threshold a))).length - offset)
      ∧ (∀ a ∈ getTemperatureAnomalies anoms startK endK baseline b2 d2 threshold limit offset,
          a ∈ anoms ∧ anomalyPred startK endK baseline b2 d2 threshold a)
      ∧ ∀ i : ℕ, i < limit →
          (getTemperatureAnomalies anoms startK endK baseline b2 d2 threshold limit offset)[i]? =
            ((anoms.filter (fun a =>
              decide (anomalyPred startK endK baseline b2 d2 threshold a))).insertionSort
                (dateDesc anomalyDateKey))[offset + i]?)
    ∧ (List.Pairwise (fun a b : HeatwaveRow => b.start_date ≤ a.start_date)
        (getMarineHeatwaves events qs qe b3 minDur pct d3 limit offset)
      ∧ (getMarineHeatwaves events qs qe b3 minDur pct d3 limit offset).length =
          min limit ((heatwaveFilter events qs qe b3 minDur pct d3).length - offset)
      ∧ (∀ ev ∈ getMarineHeatwaves events qs qe b3 minDur pct d3 limit offset,
          ev ∈ events ∧ heatwavePred qs qe b3 minDur pct d3 ev)
      ∧ ∀ i : ℕ, i < limit →
          (getMarineHeatwaves events qs qe b3 minDur pct d3 limit offset)[i]? =
            ((heatwaveFilter events qs qe b3 minDur pct d3).insertionSort
              (dateDesc (·.start_date)))[offset + i]?) := by
  refine ⟨⟨?_, ?_, ?_, ?_⟩, ⟨?_, ?_, ?_, ?_⟩, ⟨?_, ?_, ?_, ?_⟩⟩
  · exact queryPipeline_pairwise (·.date) _ daily limit offset
  · exact queryPipeline_length (·.date) _ daily limit offset
  · intro r hr
    have h := queryPipeline_mem (·.date)
      (fun r => decide (tempDataPred startD endD b1 d1 r)) daily limit offset hr
    exact ⟨h.1, of_decide_eq_true h.2⟩
  · exact queryPipeline_getElem (·.date) _ daily limit offset
  · exact queryPipeline_pairwise anomalyDateKey _ anoms limit offset
  · exact queryPipeline_length anomalyDateKey _ anoms limit offset
  · intro a ha
    have h := queryPipeline_mem anomalyDateKey
      (fun a => decide (anomalyPred startK endK baseline b2 d2 threshold a))
      anoms limit offset ha
    exact ⟨h.1, of_decide_eq_true h.2⟩
  · exact queryPipeline_getElem anomalyDateKey _ anoms limit offset
  · exact queryPipeline_pairwise (·.start_date) _ events limit offset
  · exact queryPipeline_length (·.start_date)
      (fun ev => decide (heatwavePred qs qe b3 minDur pct d3 ev)) events limit offset
  · intro ev hev
    have h := queryPipeline_mem (·.start_date)
      (fun ev => decide (heatwavePred qs qe b3 minDur pct d3 ev))
      events limit offset hev
    exact ⟨h.1, of_decide_eq_true h.2⟩
  · exact queryPipeline_getElem (·.start_date)
      (fun ev => decide (heatwavePred qs qe b3 minDur pct d3 ev)) events limit offset

/-- Witness for C10: the demo event is returned by `get_marine_heatwaves`
over the one-event store and indeed is a stored, matching event. -/
theorem c10_reads_sorted_paginated_witness :
    demoEvent ∈ [demoEvent] ∧ heatwavePred 90 120 none 5 90 none demoEvent :=
  (c10_reads_sorted_paginated demoDaily demoAnomalyRows [demoEvent]
      0 10 0 100000 90 120 "1991-2020" none none none none none none none 5 90
      10 0).2.2.2.2.1 demoEvent (by decide)

/-! ## C1 — the Baseline Calculator coverage floor -/

/-- A baseline record with key `k` is emitted exactly when the number of
qualifying monthly rows carrying key `k` reaches `minYears` (the `HAVING
COUNT(*) >= :min_years` clause over a nonempty group). -/
lemma baseline_emitted_key_iff (db : List MonthlyRow) (s e : ℤ) (ds : String)
    (res : ℚ) (k : ℚ × ℚ × ℤ)
    (hk : ∃ m ∈ db, qualifiesBaselineRow s e ds m ∧ baselineKey res m = k) :
    (∃ rec ∈ calculateClimateBaseline db s e ds res,
        (rec.lat_bin, rec.lon_bin, rec.month) = k) ↔
      minYears s e ≤ (db.filter (fun m =>
        decide (qualifiesBaselineRow s e ds m ∧ baselineKey res m = k))).length := by
  have hsplit : (db.filter (fun m =>
      decide (qualifiesBaselineRow s e ds m))).filter
        (fun m => decide (baselineKey res m = k)) =
      db.filter (fun m =>
        decide (qualifiesBaselineRow s e ds m ∧ baselineKey res m = k)) :=
    filter_filter_decide _ _ db
  constructor
  · rintro ⟨rec, hrec, hkey⟩
    simp only [calculateClimateBaseline] at hrec
    rw [List.mem_filterMap] at hrec
    obtain ⟨kg, hkg, hf⟩ := hrec
    split at hf
    case isFalse => exact absurd hf (Option.noConfusion)
    case isTrue hlen =>
      obtain rfl := Option.some.inj hf
      have hk1 : kg.1 = k := hkey
      have hgrp := eq_of_mem_groupByKey hkg
      rw [hk1] at hgrp
      rw [hgrp, hsplit] at hlen
      exact hlen
  · intro hlen
    obtain ⟨m, hm, hqual, hkeym⟩ := hk
    have hmrows : m ∈ db.filter (fun m =>
        decide (qualifiesBaselineRow s e ds m)) :=
      List.mem_filter.mpr ⟨hm, decide_eq_true hqual⟩
    have hkg := mem_groupByKey (baselineKey res)
      (db.filter (fun m => decide (qualifiesBaselineRow s e ds m))) k
      ⟨m, hmrows, hkeym⟩
    have hlen2 : minYears s e ≤
        ((db.filter (fun m => decide (qualifiesBaselineRow s e ds m))).filter
          (fun m => decide (baselineKey res m = k))).length := by
      rw [hsplit]
      exact hlen
    refine ⟨⟨k.1, k.2.1, k.2.2, s, e,
      some (listMean (((db.filter (fun m =>
        decide (qualifiesBaselineRow s e ds m))).filter
          (fun m => decide (baselineKey res m = k))).filterMap (·.avg_sst_c))),
      sqlStddevVar (((db.filter (fun m =>
        decide (qualifiesBaselineRow s e ds m))).filter
          (fun m => decide (baselineKey res m = k))).filterMap (·.avg_sst_c)),
      ds⟩, ?_, rfl⟩
    simp only [calculateClimateBaseline]
    rw [List.mem_filterMap]
    refine ⟨(k, (db.filter (fun m =>
      decide (qualifiesBaselineRow s e ds m))).filter
        (fun m => decide (baselineKey res m = k))), hkg, ?_⟩
    dsimp only
    rw [if_pos hlen2]

/-- C1 counterexample: over the 31-year period 1990–2020, the group at
bin (0, 0), month 1, with exactly 21 contributing years (one row per year
1990–2010) **is** emitted by the source (`int(31 * 0.7) = 21`), although
`21 < ⌈0.7 × 31⌉ = 22` (`21 × 10 < 7 × 31`), so the claimed ceil-based floor
would omit it. -/
theorem c1_coverage_ceil_refuted :
    (∃ rec ∈ calculateClimateBaseline c1Rows 1990 2020 "ERSST" 1,
        (rec.lat_bin, rec.lon_bin, rec.month) = ((0 : ℚ), (0 : ℚ), (1 : ℤ)))
    ∧ (c1Rows.map (·.year)).dedup.length = 21
    ∧ 21 * 10 < 7 * 31 := by
  have hmem21 : ∀ m ∈ c1Rows, qualifiesBaselineRow 1990 2020 "ERSST" m ∧
      baselineKey 1 m = ((0 : ℚ), (0 : ℚ), (1 : ℤ)) := by
    intro m hm
    unfold c1Rows at hm
    obtain ⟨i, hi, rfl⟩ := List.mem_map.mp hm
    rw [List.mem_range] at hi
    refine ⟨⟨by exact (by omega : (1990 : ℤ) ≤ 1990 + (i : ℤ)),
      by exact (by omega : (1990 : ℤ) + (i : ℤ) ≤ 2020), rfl, by simp⟩, ?_⟩
    unfold baselineKey
    simp [binQ_zero]
  refine ⟨?_, ?_, by norm_num⟩
  · rw [baseline_emitted_key_iff c1Rows 1990 2020 "ERSST" 1
      ((0 : ℚ), (0 : ℚ), (1 : ℤ))
      ⟨_, List.mem_map.mpr ⟨0, by simp, rfl⟩,
        hmem21 _ (List.mem_map.mpr ⟨0, by simp, rfl⟩)⟩]
    rw [List.filter_eq_self.mpr (fun m hm => decide_eq_true (hmem21 m hm))]
    have hlen : c1Rows.length = 21 := by simp [c1Rows]
    rw [hlen]
    decide
  · have hyears : c1Rows.map (·.year) =
        (List.range 21).map (fun i : ℕ => (1990 : ℤ) + (i : ℤ)) := by
      unfold c1Rows
      rw [List.map_map]
      rfl
    have hnodup : ((List.range 21).map (fun i : ℕ => (1990 : ℤ) + (i : ℤ))).Nodup :=
      List.Nodup.map (fun a b hab => by omega) (List.nodup_range 21)
    rw [hyears, List.dedup_eq_self.mpr hnodup, List.length_map,
      List.length_range]

/-- C1 amended: the Baseline Calculator emits a record for a nonempty
`(lat_bin, lon_bin, month)` group exactly when the number of contributing
monthly **rows** is at least `int(0.7 × (end_year − start_year + 1))` — a
floor, not a ceiling (the two agree only when `0.7 × n` is an integer, as
for the 30-year period 1991–2020 where the threshold is 21); the row count
equals the number of contributing years whenever each contributing year has
one row in the group (distinct years). -/
theorem c1_coverage_floor_amended (db : List MonthlyRow) (s e : ℤ) (ds : String)
    (res : ℚ) (k : ℚ × ℚ × ℤ)
    (hk : ∃ m ∈ db, qualifiesBaselineRow s e ds m ∧ baselineKey res m = k) :
    ((∃ rec ∈ calculateClimateBaseline db s e ds res,
        (rec.lat_bin, rec.lon_bin, rec.month) = k) ↔
      minYears s e ≤ (db.filter (fun m =>
        decide (qualifiesBaselineRow s e ds m ∧ baselineKey res m = k))).length)
    ∧ minYears 1991 2020 = 21
    ∧ (∀ l : List MonthlyRow, (l.map (·.year)).Nodup →
        (l.map (·.year)).dedup.length = l.length) := by
  refine ⟨baseline_emitted_key_iff db s e ds res k hk, by decide, ?_⟩
  intro l hnodup
  rw [List.dedup_eq_self.mpr hnodup, List.length_map]

/-- Witness for C1 amended at the one-row demo database over the one-year
period 2023–2023 (`minYears = 0`). -/
theorem c1_coverage_floor_amended_witness :
    ((∃ rec ∈ calculateClimateBaseline demoMonthly 2023 2023 "ERSST" 1,
        (rec.lat_bin, rec.lon_bin, rec.month) = ((0 : ℚ), (0 : ℚ), (1 : ℤ))) ↔
      minYears 2023 2023 ≤ (demoMonthly.filter (fun m =>
        decide (qualifiesBaselineRow 2023 2023 "ERSST" m ∧
          baselineKey 1 m = ((0 : ℚ), (0 : ℚ), (1 : ℤ))))).length)
    ∧ minYears 1991 2020 = 21
    ∧ (∀ l : List MonthlyRow, (l.map (·.year)).Nodup →
        (l.map (·.year)).dedup.length = l.length) :=
  c1_coverage_floor_amended demoMonthly 2023 2023 "ERSST" 1
    ((0 : ℚ), (0 : ℚ), (1 : ℤ))
    ⟨⟨2023, 1, 0, 0, some 10, none, none, none, 1, "ERSST"⟩,
     by simp [demoMonthly],
     ⟨le_refl 2023, le_refl 2023, rfl, by simp⟩,
     by simp [baselineKey, binQ_zero]⟩

end BlueSphere
